import Mathlib

/-!
Verification development for the carfinderai lead-generation pipeline.

Shallow embedding of the pipeline's pure logic:
* src/managers/messaging_manager.py — phone-number normalization,
* src/managers/data_manager.py — lead cleaning, duplicate filtering,
  append with local mirror, read with local fallback, retry helper,
* src/managers/notification_manager.py — two-channel operator notification,
* src/main_agent.py — the per-lead orchestration loop.

Python dictionaries are embedded as structures with Option-valued fields
where a field can be absent; Python exceptions are embedded as explicit
Except/Option results; remote (network) outcomes are parameters of the
embedded functions, so that every control-flow branch of the source is
represented by a case of the embedding.
-/

namespace CarFinder

/-! ### Messaging: phone normalization (messaging_manager.py) -/

namespace Messaging

/-- All decimal-digit characters of a raw phone string, in order.
Embeds the statement digits_only = re.sub(r'\D', '', phone). -/
def digitsOnly (phone : String) : List Char :=
  phone.data.filter Char.isDigit

/-- The HTTP-429-style transient list does not belong here; this is the
E.164 normalizer MessagingManager._normalize_phone_number.  Branches in
source order: falsy input, 10 digits, 11 digits starting with 1, 7 digits
(Hawaii 808 fallback), then the length-at-least-10 fallback, else None. -/
def normalizePhoneNumber (phone : String) : Option String :=
  if phone = "" then none
  else
    let d := digitsOnly phone
    if d.length = 10 then some ("+1" ++ String.mk d)
    else if d.length = 11 ∧ d.head? = some '1' then some ("+" ++ String.mk d)
    else if d.length = 7 then some ("+1808" ++ String.mk d)
    else if 10 ≤ d.length then
      if d.head? = some '1' then some ("+" ++ String.mk d)
      else some ("+1" ++ String.mk (d.drop (d.length - 10)))
    else none

end Messaging

/-! ### Python value model

Values a scraped-lead dictionary field can hold in the code paths under
verification: integers, strings, and None.  A field that is absent from the
dictionary is an Option.none at the field level. -/

inductive PyVal
  | vInt (n : Int)
  | vStr (s : String)
  | vNone
  deriving DecidableEq

/-- Python truthiness of a field value. -/
def PyVal.truthy : PyVal → Bool
  | vInt n => n != 0
  | vStr s => s != ""
  | vNone => false

/-- Python str() of a field value. -/
def PyVal.pyStr : PyVal → String
  | vInt n => toString n
  | vStr s => s
  | vNone => "None"

/-- Numeric value of a digit list, most significant first. -/
def digitsToNat (l : List Char) : Nat :=
  l.foldl (fun a c => a * 10 + (c.toNat - '0'.toNat)) 0

/-- Python int(s) on a string: optional surrounding whitespace, optional
sign, then decimal digits; anything else raises ValueError (none here). -/
def parseIntStr (s : String) : Option Int :=
  match s.trim.data with
  | '-' :: rest =>
    if rest ≠ [] ∧ rest.all Char.isDigit then some (-(digitsToNat rest : Int)) else none
  | '+' :: rest =>
    if rest ≠ [] ∧ rest.all Char.isDigit then some ((digitsToNat rest : Int)) else none
  | cs =>
    if cs ≠ [] ∧ cs.all Char.isDigit then some ((digitsToNat cs : Int)) else none

/-- Python int(v) on a field value: ints pass through, strings are parsed,
int(None) raises TypeError (none here). -/
def pyToInt : PyVal → Option Int
  | .vInt n => some n
  | .vStr s => parseIntStr s
  | .vNone => none

/-! ### DataManager: lead cleaning (data_manager.py, _clean_leads_data) -/

/-- The price string with dollar signs and commas removed
(price_str.replace of both characters by the empty string). -/
def stripPriceChars (s : String) : String :=
  String.mk (s.data.filter (fun c => c ≠ '$' ∧ c ≠ ','))

/-- Python int(float(s)) for the common decimal forms: optional sign,
digits, optional fractional part; truncates toward zero.  Exotic float
syntax (exponents, inf, nan) is treated as a parse failure. -/
def parsePriceInt (s : String) : Option Int :=
  let cs := s.trim.data
  let signBody : Int × List Char :=
    match cs with
    | '-' :: rest => (-1, rest)
    | '+' :: rest => (1, rest)
    | _ => (1, cs)
  let intPart := signBody.2.takeWhile (fun c => c ≠ '.')
  let fracPart := (signBody.2.dropWhile (fun c => c ≠ '.')).drop 1
  if intPart.all Char.isDigit ∧ fracPart.all Char.isDigit ∧
      (intPart ≠ [] ∨ fracPart ≠ []) ∧ fracPart.all (fun c => c ≠ '.') then
    some (signBody.1 * (digitsToNat intPart : Int))
  else none

/-- Price coercion of _clean_leads_data: when the price field is present and
truthy, strip currency characters from str(price) and coerce via
int(float(.)); on ValueError/TypeError keep the original value. -/
def coercePrice : Option PyVal → Option PyVal
  | none => none
  | some v =>
    if v.truthy then
      match parsePriceInt (stripPriceChars v.pyStr) with
      | some n => some (.vInt n)
      | none => some v
    else some v

/-- Year coercion of _clean_leads_data: when the year field is present and
truthy, coerce via int(year); on ValueError/TypeError keep the original. -/
def coerceYear : Option PyVal → Option PyVal
  | none => none
  | some v =>
    if v.truthy then
      match pyToInt v with
      | some n => some (.vInt n)
      | none => some v
    else some v

/-- A scraped lead record.  Fields string-valued in every code path are
plain strings (absent embeds as the empty string, matching the
lead.get(field, empty) accesses); year and price can be absent or hold a
non-string value, so they are Option PyVal. -/
structure Lead where
  title : String
  year : Option PyVal
  make : String
  model : String
  price : Option PyVal
  source : String
  listing_url : String
  description : String
  phone_number : String
  date_posted : String
  thryv_status : String
  thryv_lead_id : String
  deriving DecidableEq

/-- The per-record body of _clean_leads_data: copy the record and coerce
price and year. -/
def cleanLead (lead : Lead) : Lead :=
  { lead with price := coercePrice lead.price, year := coerceYear lead.year }

/-- The minimum-year comparison cleaned_lead.get(year-key, 0) at least
min_year: some b when the comparison evaluates to b, none when it raises
TypeError (string or None compared with an int). -/
def yearComparison (lead : Lead) (minYear : Int) : Option Bool :=
  match lead.year with
  | none => some (decide (0 ≥ minYear))
  | some (.vInt n) => some (decide (n ≥ minYear))
  | some (.vStr _) => none
  | some .vNone => none

/-- Whether _clean_leads_data appends the cleaned record: yes when the
comparison returns true, no when it returns false, yes (manual review) when
the comparison raises TypeError. -/
def keepsLead (minYear : Int) (lead : Lead) : Bool :=
  match yearComparison lead minYear with
  | some b => b
  | none => true

/-- DataManager._clean_leads_data: clean every record, keep those passing
the minimum-year policy. -/
def cleanLeadsData (minYear : Int) (leads : List Lead) : List Lead :=
  (leads.map cleanLead).filter (keepsLead minYear)

/-- Spec-side characterization of the year policy actually implemented:
kept iff the coerced year (defaulting to 0 when the field is absent) is at
least the minimum, or the year value is not integer-comparable. -/
def keptForYear (minYear : Int) (yr : Option PyVal) : Prop :=
  (∃ n : Int, (yr = none ∧ n = 0 ∨ yr = some (PyVal.vInt n)) ∧ minYear ≤ n) ∨
  (∃ s, yr = some (PyVal.vStr s)) ∨ yr = some PyVal.vNone

/-- A lead with every string field empty, for concrete instances. -/
def mkLead (yr : Option PyVal) (url : String) : Lead :=
  { title := "t", year := yr, make := "", model := "", price := none,
    source := "", listing_url := url, description := "", phone_number := "",
    date_posted := "", thryv_status := "", thryv_lead_id := "" }

/-! ### DataManager: sheet rows and duplicate filtering (filter_duplicates) -/

/-- A ledger (sheet) row: a list of cell strings. -/
abbrev Row := List String

/-- Cell rendering of an optional field, lead.get(field, empty string). -/
def pyCell : Option PyVal → String
  | none => ""
  | some v => v.pyStr

/-- DataManager._lead_to_row: the fixed 13-column layout, with the run
timestamp as a parameter in place of datetime.now(). -/
def leadToRow (ts : String) (lead : Lead) : Row :=
  [ts, lead.title, pyCell lead.year, lead.make, lead.model, pyCell lead.price,
   lead.source, lead.listing_url, lead.description, lead.phone_number,
   lead.date_posted, lead.thryv_status, lead.thryv_lead_id]

/-- Header normalization h.lower() followed by replacing blanks with
underscores, fused character by character (the headers are ASCII, where the
two formulations agree). -/
def normalizeHeader (h : String) : String :=
  String.mk (h.data.map (fun c => if c = ' ' then '_' else c.toLower))

/-- filter_duplicates column discovery: the index of listing_url among the
normalized headers of the first row, defaulting to column 7 when the header
is missing. -/
def urlColumnIndex (existingValues : List Row) : Nat :=
  match existingValues with
  | [] => 7
  | headers :: _ =>
    match (headers.map normalizeHeader).findIdx? (fun h => h == "listing_url") with
    | some i => i
    | none => 7

/-- filter_duplicates URL harvesting: the cells at the URL column of the
data rows (header row excluded) that are present and non-empty.  The Python
set is modeled as a list used only through membership. -/
def existingUrls (existingValues : List Row) : List String :=
  (existingValues.drop 1).filterMap (fun row =>
    if row.getD (urlColumnIndex existingValues) "" ≠ "" then
      some (row.getD (urlColumnIndex existingValues) "")
    else none)

/-- The keep decision of filter_duplicates for one candidate, with the
source's branch structure: keep fresh non-empty URLs, drop URLs already in
the ledger, keep URL-less candidates for manual review. -/
def keepLead (urls : List String) (lead : Lead) : Bool :=
  if lead.listing_url ≠ "" ∧ lead.listing_url ∉ urls then true
  else if lead.listing_url ∈ urls then false
  else true

/-- DataManager.filter_duplicates on the reachable-ledger path: the sheet
service is available and the full-range read returned existingValues.  An
empty candidate list short-circuits before the remote read; an empty read
result keeps every candidate. -/
def filterDuplicatesOk (existingValues : List Row) (leads : List Lead) : List Lead :=
  if leads = [] then []
  else if existingValues = [] then leads
  else leads.filter (keepLead (existingUrls existingValues))

/-! ### DataManager: append with local mirror (append_leads_to_sheet) -/

/-- The two persistent stores the append path touches. -/
structure DMState where
  sheet : List Row
  mirror : List Lead
  deriving DecidableEq

/-- Observable side effects of the append path, in order of occurrence. -/
inductive Effect
  | remoteRead
  | localWrite (leads : List Lead)
  | remoteAppend (rows : List Row)
  | remoteRefresh
  deriving DecidableEq

/-- Whether an effect is a call to the remote ledger service. -/
def Effect.isRemote : Effect → Bool
  | remoteRead => true
  | localWrite _ => false
  | remoteAppend _ => true
  | remoteRefresh => true

/-- Outcome of the remote append call: success, a 401/403 auth error
(followed by a credential refresh and, when that works, one retried
append), or any other error. -/
inductive AppendOutcome
  | ok
  | authErr (refreshOk : Bool) (retryOk : Bool)
  | otherErr
  deriving DecidableEq

/-- DataManager.append_leads_to_sheet on the reachable-ledger path: empty
input returns False at once; the input is cleaned and duplicate-filtered
(the filter performs the remote read unless cleaning emptied the batch);
when nothing survives the call returns True without touching the mirror;
otherwise the survivors are appended to the local mirror first and then the
remote append is attempted with the given outcome. -/
def appendLeadsToSheet (minYear : Int) (ts : String) (st : DMState)
    (leadsData : List Lead) (outcome : AppendOutcome) :
    DMState × Bool × List Effect :=
  if leadsData = [] then (st, false, [])
  else
    let cleaned := cleanLeadsData minYear leadsData
    let unique := filterDuplicatesOk st.sheet cleaned
    let readFx : List Effect := if cleaned = [] then [] else [.remoteRead]
    if unique = [] then (st, true, readFx)
    else
      let rows := unique.map (leadToRow ts)
      let mirror' := st.mirror ++ unique
      match outcome with
      | .ok =>
        (⟨st.sheet ++ rows, mirror'⟩, true,
          readFx ++ [.localWrite unique, .remoteAppend rows])
      | .authErr refreshOk retryOk =>
        if refreshOk then
          if retryOk then
            (⟨st.sheet ++ rows, mirror'⟩, true,
              readFx ++ [.localWrite unique, .remoteAppend rows, .remoteRefresh,
                .remoteAppend rows])
          else
            (⟨st.sheet, mirror'⟩, false,
              readFx ++ [.localWrite unique, .remoteAppend rows, .remoteRefresh,
                .remoteAppend rows])
        else
          (⟨st.sheet, mirror'⟩, false,
            readFx ++ [.localWrite unique, .remoteAppend rows, .remoteRefresh])
      | .otherErr =>
        (⟨st.sheet, mirror'⟩, false,
          readFx ++ [.localWrite unique, .remoteAppend rows])

/-- The header row _create_new_sheet provisions; its listing_url column is
column 7. -/
def stdHeader : Row :=
  ["Timestamp", "Title", "Year", "Make", "Model", "Price", "Source",
   "Listing URL", "Description", "Seller Phone", "Date Posted",
   "Thryv_Status", "Thryv_Lead_ID"]

/-- Number of ledger data rows carrying the given listing_url in the URL
column. -/
def urlRowCount (sheet : List Row) (url : String) : Nat :=
  ((sheet.drop 1).filter (fun row => row.getD 7 "" = url)).length

/-- A well-formed lead used in concrete instances: year above the minimum,
non-empty URL. -/
def dupLead : Lead := mkLead (some (.vInt 2020)) "https://carsite.example/listing/1"

/-! ### DataManager: read with local fallback (get_all_leads) -/

/-- Outcome of the remote full-range read, as surfaced by the retry
helper: a value, an HttpError with its status, a TimeoutError, or any
other exception. -/
inductive ReadOutcome
  | ok (values : List Row)
  | httpErr (status : Nat)
  | timeoutErr
  | otherExc
  deriving DecidableEq

/-- Environment of one get_all_leads call: whether the sheet service is
initialized, whether stored OAuth credentials are present, whether an
entry connection refresh would succeed, the outcome of the remote read,
and the local mirror contents. -/
structure GetAllEnv where
  serviceUp : Bool
  credsPresent : Bool
  refreshOk : Bool
  readOutcome : ReadOutcome
  localMirror : List Lead

/-- Externally visible actions of get_all_leads, in order. -/
inductive ReadAction
  | refreshConn
  | remoteRead
  deriving DecidableEq

/-- Row parsing of get_all_leads: normalize the header row, pad each data
row to the header length, and zip headers with cells. -/
def parseValues (values : List Row) : List (List (String × String)) :=
  match values with
  | [] => []
  | headers :: rows =>
    rows.map (fun row =>
      (headers.map normalizeHeader).zip
        (row ++ List.replicate ((headers.map normalizeHeader).length - row.length) ""))

/-- The remote-read phase of get_all_leads when the service is available:
the inner try wraps the retry helper and catches HttpError and
TimeoutError with a local-mirror fallback; any other exception reaches the
outer blanket handler, also a local-mirror fallback; an empty read result
falls back too.  Every HttpError raised by the read (auth statuses
included) is caught by the inner handler, so the outer auth-refresh branch
never fires for the read. -/
def readPhase (env : GetAllEnv) : List (List (String × String)) ⊕ List Lead :=
  match env.readOutcome with
  | .ok values => if values = [] then .inr env.localMirror else .inl (parseValues values)
  | .httpErr _ => .inr env.localMirror
  | .timeoutErr => .inr env.localMirror
  | .otherExc => .inr env.localMirror

/-- DataManager.get_all_leads: when the service is down, one optional
connection refresh gated on stored credentials (local fallback when it
fails or none are present); then the remote-read phase.  Returns the
result together with the ordered action list. -/
def getAllLeads (env : GetAllEnv) :
    (List (List (String × String)) ⊕ List Lead) × List ReadAction :=
  if env.serviceUp then (readPhase env, [.remoteRead])
  else if env.credsPresent then
    if env.refreshOk then (readPhase env, [.refreshConn, .remoteRead])
    else (.inr env.localMirror, [.refreshConn])
  else (.inr env.localMirror, [])

/-! ### DataManager: retry helper (_execute_with_retry) -/

/-- Outcome of one request.execute() attempt. -/
inductive ApiOutcome
  | success (v : Nat)
  | httpError (status : Nat)
  | timeoutFail
  deriving DecidableEq

/-- The HTTP statuses _execute_with_retry treats as transient. -/
def transientStatuses : List Nat := [429, 500, 502, 503, 504]

/-- Exceptions the helper can raise to its caller. -/
inductive RetryError
  | http (status : Nat)
  | timeout
  deriving DecidableEq

/-- Result of the helper: the raised error or returned value (None when no
attempt ran), the number of attempts made, and the sleep durations in
order. -/
structure RetryResult where
  result : Except RetryError (Option Nat)
  attemptsMade : Nat
  sleeps : List Nat

/-- A failed attempt the helper retries: a timeout, or an HttpError with a
transient status. -/
def ApiOutcome.isTransientFailure : ApiOutcome → Prop
  | .success _ => False
  | .httpError s => s ∈ transientStatuses
  | .timeoutFail => True

/-- The exception object of a failing attempt. -/
def ApiOutcome.toRetryErr : ApiOutcome → RetryError
  | .success _ => .http 0
  | .httpError s => .http s
  | .timeoutFail => .timeout

/-- The attempt loop of _execute_with_retry over remaining attempts,
current attempt index, current delay, last caught error, and sleeps so
far: a success returns at once; a non-transient HttpError is re-raised at
once; a transient failure records the error, sleeps the current delay,
doubles it, and continues; an exhausted loop raises the last error (or
returns None when no attempt ever ran). -/
def executeWithRetryAux (f : Nat → ApiOutcome) :
    Nat → Nat → Nat → Option RetryError → List Nat → RetryResult
  | 0, attempt, _, last, sleeps =>
    ⟨match last with
      | some e => .error e
      | none => .ok none, attempt, sleeps⟩
  | remaining + 1, attempt, delay, _, sleeps =>
    match f attempt with
    | .success v => ⟨.ok (some v), attempt + 1, sleeps⟩
    | .httpError s =>
      if s ∈ transientStatuses then
        executeWithRetryAux f remaining (attempt + 1) (delay * 2)
          (some (.http s)) (sleeps ++ [delay])
      else ⟨.error (.http s), attempt + 1, sleeps⟩
    | .timeoutFail =>
      executeWithRetryAux f remaining (attempt + 1) (delay * 2)
        (some .timeout) (sleeps ++ [delay])

/-- DataManager._execute_with_retry at its default arguments max_retries 3
and retry_delay 2. -/
def executeWithRetry (f : Nat → ApiOutcome) : RetryResult :=
  executeWithRetryAux f 3 0 2 none []

/-! ### NotificationManager: operator notification (notify_client_about_lead) -/

/-- Environment of one operator notification: per-channel configuration
and whether the SMTP send succeeds (an SMTP exception and a failure both
land in the except branch returning False). -/
structure NotifyEnv where
  emailConfigured : Bool
  emailSendOk : Bool
  clientPhonePresent : Bool
  messagingUp : Bool

/-- send_email_notification: False without full email configuration, else
one SMTP attempt whose failure or exception yields False. -/
def sendEmailNotification (env : NotifyEnv) : Bool :=
  env.emailConfigured && env.emailSendOk

/-- send_sms_notification_to_client: False without a client phone number
or messaging manager; otherwise send_sms is called, and since send_sms
returns a non-empty status dictionary on success and failure alike, the
truthiness test on its result yields True. -/
def sendSmsNotificationToClient (env : NotifyEnv) : Bool :=
  env.clientPhonePresent && env.messagingUp

/-- The per-channel result dictionary of notify_client_about_lead. -/
structure NotifyResult where
  email : Bool
  sms : Bool
  deriving DecidableEq

/-- The two notification channels. -/
inductive Channel
  | email
  | sms
  deriving DecidableEq

/-- NotificationManager.notify_client_about_lead: attempt the email
channel then the SMS channel, each converting its own failures to a
boolean, and return both results together with the attempt trace. -/
def notifyClientAboutLead (env : NotifyEnv) : NotifyResult × List Channel :=
  (⟨sendEmailNotification env, sendSmsNotificationToClient env⟩,
   [Channel.email, Channel.sms])

/-- The returned dictionary as the orchestrator receives it. -/
def notifyResultDict (r : NotifyResult) : List (String × Bool) :=
  [("email", r.email), ("sms", r.sms)]

/-- Python truthiness of a dictionary: non-emptiness. -/
def pyDictTruthy (d : List (String × Bool)) : Bool :=
  !d.isEmpty

/-- The overall notified outcome the orchestrator observes: main tests the
returned dictionary itself for truthiness. -/
def observedNotified (env : NotifyEnv) : Bool :=
  pyDictTruthy (notifyResultDict (notifyClientAboutLead env).1)

/-! ### Orchestrator: the per-lead loop of main (main_agent.py) -/

/-- Run-level flags of main: the CRM enable toggle, the one-time Thryv
authentication result, and dry-run mode. -/
structure RunFlags where
  crmEnabled : Bool
  thryvAuthSuccess : Bool
  dryRun : Bool
  deriving DecidableEq

/-- Per-lead external outcome in one loop iteration: whether the CRM
create call succeeds.  The seller-SMS and operator-notification steps
return status values and cannot raise here (their managers catch their own
exceptions), so they do not influence the iteration's control flow. -/
structure LeadJob where
  thryvCreateOk : Bool
  deriving DecidableEq

/-- A Python exception escaping a loop iteration. -/
inductive PyExc
  | unboundLocalError (name : String)
  deriving DecidableEq

/-- One iteration of the per-lead loop of main, returning the Thryv status
strings written to the ledger for this lead, or the exception the
iteration raises.  The branch structure follows the source: when CRM is
enabled and authentication succeeded, step 3 writes the create outcome
directly but never assigns the local variable thryv_status; step 4 (run
when not in dry-run mode) then reads thryv_status, which raises
UnboundLocalError in exactly that branch. -/
def processLead (flags : RunFlags) (job : LeadJob) : Except PyExc (List String) :=
  let crmWrites : List String :=
    if flags.thryvAuthSuccess && flags.crmEnabled && !flags.dryRun then
      [if job.thryvCreateOk then "Sent to Thryv" else "Error: Failed to send to Thryv"]
    else []
  let thryvStatus : Option String :=
    if flags.thryvAuthSuccess && flags.crmEnabled then none
    else if !flags.thryvAuthSuccess && flags.crmEnabled then some "Error (Auth Failed)"
    else if !flags.crmEnabled then some "Skipped (Disabled)"
    else some "Skipped (Unknown Reason)"
  if flags.dryRun then .ok crmWrites
  else
    match thryvStatus with
    | some st => .ok (crmWrites ++ [st])
    | none => .error (.unboundLocalError "thryv_status")

/-- The per-lead loop of main: there is no per-lead exception handler, so
the first exception aborts the loop. -/
def runLeadLoop (flags : RunFlags) : List LeadJob → Except PyExc Unit
  | [] => .ok ()
  | job :: rest =>
    match processLead flags job with
    | .ok _ => runLeadLoop flags rest
    | .error e => .error e

/-- The exit code of main: 0 on a completed run, 1 when an exception
escapes to the outermost handler. -/
def mainExitCode (flags : RunFlags) (jobs : List LeadJob) : Nat :=
  match runLeadLoop flags jobs with
  | .ok _ => 0
  | .error _ => 1

end CarFinder

namespace CarFinder

open Messaging

/-- C7: Phone normalization maps the spec's four examples as stated, and in
general a 10-digit number gets the country code prepended while an 11-digit
number starting with the country-code digit 1 gets a plus sign prepended. -/
theorem C7_phone_normalization :
    normalizePhoneNumber "808-555-1234" = some "+18085551234" ∧
    normalizePhoneNumber "(808) 555-1234" = some "+18085551234" ∧
    normalizePhoneNumber "555-1234" = some "+18085551234" ∧
    normalizePhoneNumber "123" = none ∧
    (∀ p : String, (digitsOnly p).length = 10 →
      normalizePhoneNumber p = some ("+1" ++ String.mk (digitsOnly p))) ∧
    (∀ p : String, (digitsOnly p).length = 11 → (digitsOnly p).head? = some '1' →
      normalizePhoneNumber p = some ("+" ++ String.mk (digitsOnly p))) := by
  refine ⟨by decide, by decide, by decide, by decide, ?_, ?_⟩
  · intro p h10
    have hne : p ≠ "" := by
      intro he
      rw [he] at h10
      simp [digitsOnly] at h10
    simp only [normalizePhoneNumber, if_neg hne, h10]
    simp
  · intro p h11 hhead
    have hne : p ≠ "" := by
      intro he
      rw [he] at h11
      simp [digitsOnly] at h11
    simp only [normalizePhoneNumber, if_neg hne, h11]
    norm_num [hhead]

/-- Closed instance of C7's general clauses at concrete inputs. -/
theorem C7_phone_normalization_witness :
    normalizePhoneNumber "321-555-0000" = some ("+1" ++ String.mk (digitsOnly "321-555-0000")) ∧
    normalizePhoneNumber "1-321-555-0000" = some ("+" ++ String.mk (digitsOnly "1-321-555-0000")) :=
  ⟨C7_phone_normalization.2.2.2.2.1 "321-555-0000" (by decide),
   C7_phone_normalization.2.2.2.2.2 "1-321-555-0000" (by decide) (by decide)⟩

/-- C10: Phone normalization is total; it returns none exactly when the input
has fewer than 7, or exactly 8 or 9, digit characters; 11-or-more digits
starting with 1 get a plus sign prepended unchanged; any other digit string
longer than 10 is truncated to its last 10 digits with the country code
prepended. -/
theorem C10_phone_normalization_total (p : String) :
    (normalizePhoneNumber p = none ↔
      ((digitsOnly p).length < 7 ∨ (digitsOnly p).length = 8 ∨ (digitsOnly p).length = 9)) ∧
    (11 ≤ (digitsOnly p).length → (digitsOnly p).head? = some '1' →
      normalizePhoneNumber p = some ("+" ++ String.mk (digitsOnly p))) ∧
    (10 < (digitsOnly p).length → (digitsOnly p).head? ≠ some '1' →
      normalizePhoneNumber p = some ("+1" ++ String.mk ((digitsOnly p).drop ((digitsOnly p).length - 10)))) := by
  by_cases hne : p = ""
  · subst hne
    refine ⟨by simp [normalizePhoneNumber, digitsOnly], ?_, ?_⟩
    · intro h; simp [digitsOnly] at h
    · intro h; simp [digitsOnly] at h
  · simp only [normalizePhoneNumber, if_neg hne]
    refine ⟨?_, ?_, ?_⟩
    · constructor
      · intro hnone
        by_cases h10 : (digitsOnly p).length = 10
        · simp [h10] at hnone
        by_cases h11 : (digitsOnly p).length = 11 ∧ (digitsOnly p).head? = some '1'
        · simp [h10, h11] at hnone
        by_cases h7 : (digitsOnly p).length = 7
        · simp [h10, h11, h7] at hnone
        by_cases hge : 10 ≤ (digitsOnly p).length
        · by_cases hh : (digitsOnly p).head? = some '1' <;>
            simp [h10, h11, h7, hge, hh] at hnone
        · omega
      · intro hcase
        have h10 : (digitsOnly p).length ≠ 10 := by omega
        have h11 : ¬((digitsOnly p).length = 11 ∧ (digitsOnly p).head? = some '1') := by
          rintro ⟨h, -⟩; omega
        have h7 : (digitsOnly p).length ≠ 7 := by omega
        have hge : ¬(10 ≤ (digitsOnly p).length) := by omega
        simp [h10, h11, h7, hge]
    · intro hlen hhead
      have h10 : (digitsOnly p).length ≠ 10 := by omega
      have hge : 10 ≤ (digitsOnly p).length := by omega
      have h7 : (digitsOnly p).length ≠ 7 := by omega
      by_cases h11 : (digitsOnly p).length = 11
      · simp [h11, hhead]
      · have h11' : ¬((digitsOnly p).length = 11 ∧ (digitsOnly p).head? = some '1') := by
          rintro ⟨h, -⟩; exact h11 h
        simp [h10, h11', h7, hge, hhead]
    · intro hlen hhead
      have h10 : (digitsOnly p).length ≠ 10 := by omega
      have hge : 10 ≤ (digitsOnly p).length := by omega
      have h7 : (digitsOnly p).length ≠ 7 := by omega
      have h11 : ¬((digitsOnly p).length = 11 ∧ (digitsOnly p).head? = some '1') := by
        rintro ⟨-, h⟩; exact hhead h
      simp [h10, h11, h7, hge, hhead]

/-- Closed instance of C10 at concrete inputs: 8 digits give none, 12 digits
starting with 1 keep all digits, 12 digits starting with 9 keep the last 10. -/
theorem C10_phone_normalization_total_witness :
    normalizePhoneNumber "55512345" = none ∧
    normalizePhoneNumber "155512340000" = some ("+" ++ String.mk (digitsOnly "155512340000")) ∧
    normalizePhoneNumber "955512340000" =
      some ("+1" ++ String.mk ((digitsOnly "955512340000").drop ((digitsOnly "955512340000").length - 10))) :=
  ⟨(C10_phone_normalization_total "55512345").1.2 (by decide),
   (C10_phone_normalization_total "155512340000").2.1 (by decide) (by decide),
   (C10_phone_normalization_total "955512340000").2.2 (by decide) (by decide)⟩

/-- coerceYear leaves an integer year unchanged. -/
lemma coerceYear_int (n : Int) : coerceYear (some (.vInt n)) = some (.vInt n) := by
  by_cases h : (PyVal.vInt n).truthy <;> simp [coerceYear, h, pyToInt]

/-- coerceYear leaves an unparseable string year unchanged. -/
lemma coerceYear_str (s : String) (h : parseIntStr s = none) :
    coerceYear (some (.vStr s)) = some (.vStr s) := by
  by_cases ht : (PyVal.vStr s).truthy <;> simp [coerceYear, ht, pyToInt, h]

/-- The admission test when the year field is absent. -/
lemma keepsLead_of_year_none (minYear : Int) (l : Lead) (h : l.year = none) :
    keepsLead minYear l = decide (0 ≥ minYear) := by
  unfold keepsLead yearComparison
  rw [h]

/-- The admission test when the year field holds an integer. -/
lemma keepsLead_of_year_int (minYear n : Int) (l : Lead) (h : l.year = some (.vInt n)) :
    keepsLead minYear l = decide (n ≥ minYear) := by
  unfold keepsLead yearComparison
  rw [h]

/-- The admission test when the year field holds a string. -/
lemma keepsLead_of_year_str (minYear : Int) (s : String) (l : Lead)
    (h : l.year = some (.vStr s)) : keepsLead minYear l = true := by
  unfold keepsLead yearComparison
  rw [h]

/-- The admission test when the year field holds None. -/
lemma keepsLead_of_year_pynone (minYear : Int) (l : Lead) (h : l.year = some .vNone) :
    keepsLead minYear l = true := by
  unfold keepsLead yearComparison
  rw [h]

/-- The record-admission test of _clean_leads_data agrees with the
spec-side predicate keptForYear. -/
lemma keepsLead_iff (minYear : Int) (l : Lead) :
    keepsLead minYear l = true ↔ keptForYear minYear l.year := by
  rcases hy : l.year with - | v
  · rw [keepsLead_of_year_none minYear l hy]
    simp [keptForYear]
  · cases v with
    | vInt n =>
      rw [keepsLead_of_year_int minYear n l hy]
      simp [keptForYear]
    | vStr s =>
      rw [keepsLead_of_year_str minYear s l hy]
      simp [keptForYear]
    | vNone =>
      rw [keepsLead_of_year_pynone minYear l hy]
      simp [keptForYear]

/-- C1 counterexample: the claim says a record whose year field is absent is
kept for manual review, but _clean_leads_data evaluates
cleaned_lead.get(year-key, 0) to the default 0, which is below the
configured minimum 2018, so the record is dropped. -/
theorem C1_year_filter_counterexample :
    cleanLeadsData 2018 [mkLead none "u"] = [] := by decide

/-- C1 amended: normalization keeps exactly the records whose coerced year
(defaulting to 0 when the year field is absent) is at least the minimum, or
whose year value is present but not integer-comparable; in particular year
equal to min_year is kept, min_year - 1 is dropped, an absent year is
dropped for any positive minimum, and a None or unparseable-string year is
kept for manual review. -/
theorem C1_year_filter_amended (minYear : Int) :
    (∀ (leads : List Lead) (l : Lead),
        l ∈ cleanLeadsData minYear leads ↔
          ∃ l₀ ∈ leads, cleanLead l₀ = l ∧ keptForYear minYear l.year) ∧
    (∀ l : Lead, l.year = some (.vInt minYear) →
        cleanLeadsData minYear [l] = [cleanLead l]) ∧
    (∀ l : Lead, l.year = some (.vInt (minYear - 1)) →
        cleanLeadsData minYear [l] = []) ∧
    (0 < minYear → ∀ l : Lead, l.year = none →
        cleanLeadsData minYear [l] = []) ∧
    (∀ l : Lead, l.year = some .vNone →
        cleanLeadsData minYear [l] = [cleanLead l]) ∧
    (∀ (l : Lead) (s : String), l.year = some (.vStr s) → parseIntStr s = none →
        cleanLeadsData minYear [l] = [cleanLead l]) := by
  have hMem : ∀ (leads : List Lead) (l : Lead),
      l ∈ cleanLeadsData minYear leads ↔
        ∃ l₀ ∈ leads, cleanLead l₀ = l ∧ keptForYear minYear l.year := by
    intro leads l
    simp only [cleanLeadsData, List.mem_filter, List.mem_map]
    constructor
    · rintro ⟨⟨l₀, hl₀, rfl⟩, hkeep⟩
      exact ⟨l₀, hl₀, rfl, (keepsLead_iff minYear _).mp hkeep⟩
    · rintro ⟨l₀, hl₀, rfl, hkept⟩
      exact ⟨⟨l₀, hl₀, rfl⟩, (keepsLead_iff minYear _).mpr hkept⟩
  refine ⟨hMem, ?_, ?_, ?_, ?_, ?_⟩
  · intro l hy
    have hys : (cleanLead l).year = some (.vInt minYear) := by
      simp [cleanLead, hy, coerceYear_int]
    have hk : keepsLead minYear (cleanLead l) = true := by
      rw [keepsLead_of_year_int minYear minYear _ hys]
      exact decide_eq_true (by omega)
    simp [cleanLeadsData, hk]
  · intro l hy
    have hys : (cleanLead l).year = some (.vInt (minYear - 1)) := by
      simp [cleanLead, hy, coerceYear_int]
    have hk : keepsLead minYear (cleanLead l) = false := by
      rw [keepsLead_of_year_int minYear (minYear - 1) _ hys]
      exact decide_eq_false (by omega)
    simp [cleanLeadsData, hk]
  · intro hpos l hy
    have hys : (cleanLead l).year = none := by
      simp [cleanLead, hy, coerceYear]
    have hk : keepsLead minYear (cleanLead l) = false := by
      rw [keepsLead_of_year_none minYear _ hys]
      exact decide_eq_false (by omega)
    simp [cleanLeadsData, hk]
  · intro l hy
    have hys : (cleanLead l).year = some .vNone := by
      simp [cleanLead, hy, coerceYear, PyVal.truthy]
    have hk : keepsLead minYear (cleanLead l) = true :=
      keepsLead_of_year_pynone minYear _ hys
    simp [cleanLeadsData, hk]
  · intro l s hy hparse
    have hys : (cleanLead l).year = some (.vStr s) := by
      simp [cleanLead, hy, coerceYear_str s hparse]
    have hk : keepsLead minYear (cleanLead l) = true :=
      keepsLead_of_year_str minYear s _ hys
    simp [cleanLeadsData, hk]

/-- Closed instance of C1 amended: a record at exactly the minimum year is
kept. -/
theorem C1_year_filter_witness :
    cleanLeadsData 2018 [mkLead (some (.vInt 2018)) "u"] =
      [cleanLead (mkLead (some (.vInt 2018)) "u")] :=
  (C1_year_filter_amended 2018).2.1 (mkLead (some (.vInt 2018)) "u") rfl

/-- The harvested URL set never contains the empty string: only truthy
cells are added. -/
lemma existingUrls_no_empty (ev : List Row) : "" ∉ existingUrls ev := by
  intro hmem
  rw [existingUrls] at hmem
  simp only [List.mem_filterMap] at hmem
  obtain ⟨row, -, hrow⟩ := hmem
  by_cases hc : row.getD (urlColumnIndex ev) "" ≠ ""
  · rw [if_pos hc] at hrow
    exact hc (by injection hrow)
  · rw [if_neg hc] at hrow
    cases hrow

/-- The keep decision of filter_duplicates is exactly non-membership of the
candidate's URL in the harvested set. -/
lemma keepLead_iff (urls : List String) (l : Lead) :
    keepLead urls l = true ↔ l.listing_url ∉ urls := by
  unfold keepLead
  by_cases hmem : l.listing_url ∈ urls
  · have hnot : ¬(l.listing_url ≠ "" ∧ l.listing_url ∉ urls) := by
      rintro ⟨-, h⟩; exact h hmem
    simp [hnot, hmem]
  · by_cases hu : l.listing_url = ""
    · simp [hu, hmem]
    · simp [hu, hmem]

/-- C6: On the reachable-ledger path, the duplicate filter returns an
order-preserving subsequence of its input in which exactly the candidates
whose listing_url occurs among the harvested ledger URLs are removed, and a
candidate with an empty URL is always kept. -/
theorem C6_duplicate_filter (ev : List Row) (leads : List Lead) :
    List.Sublist (filterDuplicatesOk ev leads) leads ∧
    (∀ l : Lead, l ∈ filterDuplicatesOk ev leads ↔
      l ∈ leads ∧ l.listing_url ∉ existingUrls ev) ∧
    (∀ l ∈ leads, l.listing_url = "" → l ∈ filterDuplicatesOk ev leads) := by
  have hchar : ∀ l : Lead, keepLead (existingUrls ev) l = true ↔
      l.listing_url ∉ existingUrls ev :=
    fun l => keepLead_iff _ l
  by_cases hl : leads = []
  · subst hl
    simp [filterDuplicatesOk]
  · by_cases hev : ev = []
    · subst hev
      have hurls : existingUrls ([] : List Row) = [] := rfl
      simp only [filterDuplicatesOk, if_neg hl, if_pos rfl, hurls]
      exact ⟨List.Sublist.refl leads, fun l => by simp, fun l hmem _ => hmem⟩
    · have heq : filterDuplicatesOk ev leads
          = leads.filter (keepLead (existingUrls ev)) := by
        simp [filterDuplicatesOk, hl, hev]
      rw [heq]
      refine ⟨List.filter_sublist _, ?_, ?_⟩
      · intro l
        rw [List.mem_filter, hchar l]
      · intro l hmem hurl
        rw [List.mem_filter, hchar l]
        exact ⟨hmem, fun hc => existingUrls_no_empty ev (hurl ▸ hc)⟩

/-- Closed instance of C6: against a ledger holding one URL, a candidate
with an empty URL is kept even though another candidate is dropped as a
duplicate. -/
theorem C6_duplicate_filter_witness :
    mkLead none "" ∈ filterDuplicatesOk
      [["Listing URL"], ["https://carsite.example/listing/1"]]
      [dupLead, mkLead none ""] :=
  (C6_duplicate_filter [["Listing URL"], ["https://carsite.example/listing/1"]]
      [dupLead, mkLead none ""]).2.2 (mkLead none "") (by decide) rfl

/-- Cleaning does not touch the listing_url field. -/
lemma cleanLead_url (l : Lead) : (cleanLead l).listing_url = l.listing_url := rfl

/-- A serialized lead row carries its listing_url at column 7. -/
lemma leadToRow_url (ts : String) (l : Lead) :
    (leadToRow ts l).getD 7 "" = l.listing_url := rfl

/-- On a sheet provisioned with the standard header, the URL column resolves
to 7 whatever the data rows are. -/
lemma urlColumnIndex_std (rest : List Row) :
    urlColumnIndex (stdHeader :: rest) = 7 := rfl

/-- C3 counterexample: the same listing twice in a single submitted batch
passes the duplicate filter twice (the filter only compares against rows
already in the ledger) and ends up as two ledger rows. -/
theorem C3_dedup_counterexample :
    urlRowCount
      (appendLeadsToSheet 2018 "ts" ⟨[stdHeader], []⟩ [dupLead, dupLead]
        AppendOutcome.ok).1.sheet
      dupLead.listing_url = 2 := by decide

/-- C3 amended: with a reachable ledger, submitting the same listing (with a
non-empty listing_url, surviving the year policy) in two successive append
calls yields exactly one ledger row for that URL — the second call's
duplicate filter drops it by exact string match.  Within one batch
duplicates are not collapsed (see the counterexample). -/
theorem C3_dedup_amended (minYear : Int) (ts1 ts2 : String) (mirror0 : List Lead)
    (lead : Lead) (hurl : lead.listing_url ≠ "")
    (hkeep : keepsLead minYear (cleanLead lead) = true) :
    urlRowCount
      (appendLeadsToSheet minYear ts1 ⟨[stdHeader], mirror0⟩ [lead]
        AppendOutcome.ok).1.sheet lead.listing_url = 1 ∧
    urlRowCount
      (appendLeadsToSheet minYear ts2
        (appendLeadsToSheet minYear ts1 ⟨[stdHeader], mirror0⟩ [lead]
          AppendOutcome.ok).1 [lead] AppendOutcome.ok).1.sheet
      lead.listing_url = 1 := by
  have hclean : cleanLeadsData minYear [lead] = [cleanLead lead] := by
    simp [cleanLeadsData, hkeep]
  have hev1 : existingUrls [stdHeader] = [] := rfl
  have hu1 : filterDuplicatesOk [stdHeader] [cleanLead lead] = [cleanLead lead] := by
    simp [filterDuplicatesOk, hev1, keepLead, cleanLead_url, hurl]
  have hr1 : (appendLeadsToSheet minYear ts1 ⟨[stdHeader], mirror0⟩ [lead]
      AppendOutcome.ok).1
      = ⟨[stdHeader, leadToRow ts1 (cleanLead lead)], mirror0 ++ [cleanLead lead]⟩ := by
    simp [appendLeadsToSheet, hclean, hu1]
  have hcount1 : urlRowCount [stdHeader, leadToRow ts1 (cleanLead lead)]
      lead.listing_url = 1 := by
    simp [urlRowCount, leadToRow, cleanLead]
  have hev2 : existingUrls [stdHeader, leadToRow ts1 (cleanLead lead)]
      = [lead.listing_url] := by
    simp [existingUrls, urlColumnIndex_std, leadToRow, cleanLead, hurl]
  have hu2 : filterDuplicatesOk [stdHeader, leadToRow ts1 (cleanLead lead)]
      [cleanLead lead] = [] := by
    simp [filterDuplicatesOk, hev2, keepLead, cleanLead_url]
  have hr2 : (appendLeadsToSheet minYear ts2
      ⟨[stdHeader, leadToRow ts1 (cleanLead lead)], mirror0 ++ [cleanLead lead]⟩
      [lead] AppendOutcome.ok).1
      = ⟨[stdHeader, leadToRow ts1 (cleanLead lead)], mirror0 ++ [cleanLead lead]⟩ := by
    simp [appendLeadsToSheet, hclean, hu2]
  refine ⟨by rw [hr1]; exact hcount1, ?_⟩
  rw [hr1, hr2]
  exact hcount1

/-- Closed instance of C3 amended at a concrete lead. -/
theorem C3_dedup_witness :
    urlRowCount
      (appendLeadsToSheet 2018 "t1" ⟨[stdHeader], []⟩ [dupLead]
        AppendOutcome.ok).1.sheet dupLead.listing_url = 1 ∧
    urlRowCount
      (appendLeadsToSheet 2018 "t2"
        (appendLeadsToSheet 2018 "t1" ⟨[stdHeader], []⟩ [dupLead]
          AppendOutcome.ok).1 [dupLead] AppendOutcome.ok).1.sheet
      dupLead.listing_url = 1 :=
  C3_dedup_amended 2018 "t1" "t2" [] dupLead (by decide) (by decide)

/-- C4 counterexample: on a non-empty fresh batch the very first side effect
of the append operation is the duplicate filter's remote ledger read — a
remote-ledger call that precedes the local mirror write. -/
theorem C4_mirror_order_counterexample :
    (appendLeadsToSheet 2018 "ts" ⟨[stdHeader], []⟩ [dupLead]
        AppendOutcome.ok).2.2
      = [Effect.remoteRead, Effect.localWrite [cleanLead dupLead],
         Effect.remoteAppend [leadToRow "ts" (cleanLead dupLead)]] ∧
    Effect.isRemote Effect.remoteRead = true := by decide

/-- C4 amended: whenever cleaning and duplicate filtering leave survivors,
the append operation writes them to the local mirror, and in the effect
trace the only remote call preceding that write is the duplicate filter's
read — every remote append attempt (and any credential refresh) comes
after, so on any remote append failure the mirror write has already been
performed.  When nothing survives (in particular on an empty input) the
operation returns without any mirror write. -/
theorem C4_mirror_amended (minYear : Int) (ts : String) (st : DMState)
    (leads : List Lead) (outcome : AppendOutcome) :
    (filterDuplicatesOk st.sheet (cleanLeadsData minYear leads) ≠ [] →
      (appendLeadsToSheet minYear ts st leads outcome).1.mirror
          = st.mirror ++ filterDuplicatesOk st.sheet (cleanLeadsData minYear leads) ∧
      ∃ tail,
        (appendLeadsToSheet minYear ts st leads outcome).2.2
            = Effect.remoteRead
              :: Effect.localWrite
                  (filterDuplicatesOk st.sheet (cleanLeadsData minYear leads))
              :: tail ∧
        ∀ e ∈ tail, Effect.isRemote e = true) ∧
    (filterDuplicatesOk st.sheet (cleanLeadsData minYear leads) = [] →
      (appendLeadsToSheet minYear ts st leads outcome).1 = st ∧
      ∀ ls : List Lead,
        Effect.localWrite ls ∉ (appendLeadsToSheet minYear ts st leads outcome).2.2) := by
  constructor
  · intro hne
    have hcl : cleanLeadsData minYear leads ≠ [] := by
      intro h
      exact hne (by rw [h]; rfl)
    have hld : leads ≠ [] := by
      intro h
      exact hcl (by rw [h]; rfl)
    rcases outcome with - | ⟨r, t⟩ | -
    · have h1 : (appendLeadsToSheet minYear ts st leads .ok).1.mirror
          = st.mirror ++ filterDuplicatesOk st.sheet (cleanLeadsData minYear leads) := by
        simp [appendLeadsToSheet, hld, hcl, hne]
      have h2 : (appendLeadsToSheet minYear ts st leads .ok).2.2
          = Effect.remoteRead
            :: Effect.localWrite (filterDuplicatesOk st.sheet (cleanLeadsData minYear leads))
            :: [Effect.remoteAppend
                ((filterDuplicatesOk st.sheet (cleanLeadsData minYear leads)).map (leadToRow ts))] := by
        simp [appendLeadsToSheet, hld, hcl, hne]
      exact ⟨h1, _, h2, by simp [Effect.isRemote]⟩
    · rcases r with - | - <;> rcases t with - | -
      · exact ⟨by simp [appendLeadsToSheet, hld, hcl, hne],
          [Effect.remoteAppend
            ((filterDuplicatesOk st.sheet (cleanLeadsData minYear leads)).map (leadToRow ts)),
           Effect.remoteRefresh],
          by simp [appendLeadsToSheet, hld, hcl, hne], by simp [Effect.isRemote]⟩
      · exact ⟨by simp [appendLeadsToSheet, hld, hcl, hne],
          [Effect.remoteAppend
            ((filterDuplicatesOk st.sheet (cleanLeadsData minYear leads)).map (leadToRow ts)),
           Effect.remoteRefresh],
          by simp [appendLeadsToSheet, hld, hcl, hne], by simp [Effect.isRemote]⟩
      · exact ⟨by simp [appendLeadsToSheet, hld, hcl, hne],
          [Effect.remoteAppend
            ((filterDuplicatesOk st.sheet (cleanLeadsData minYear leads)).map (leadToRow ts)),
           Effect.remoteRefresh,
           Effect.remoteAppend
            ((filterDuplicatesOk st.sheet (cleanLeadsData minYear leads)).map (leadToRow ts))],
          by simp [appendLeadsToSheet, hld, hcl, hne], by simp [Effect.isRemote]⟩
      · exact ⟨by simp [appendLeadsToSheet, hld, hcl, hne],
          [Effect.remoteAppend
            ((filterDuplicatesOk st.sheet (cleanLeadsData minYear leads)).map (leadToRow ts)),
           Effect.remoteRefresh,
           Effect.remoteAppend
            ((filterDuplicatesOk st.sheet (cleanLeadsData minYear leads)).map (leadToRow ts))],
          by simp [appendLeadsToSheet, hld, hcl, hne], by simp [Effect.isRemote]⟩
    · have h1 : (appendLeadsToSheet minYear ts st leads .otherErr).1.mirror
          = st.mirror ++ filterDuplicatesOk st.sheet (cleanLeadsData minYear leads) := by
        simp [appendLeadsToSheet, hld, hcl, hne]
      have h2 : (appendLeadsToSheet minYear ts st leads .otherErr).2.2
          = Effect.remoteRead
            :: Effect.localWrite (filterDuplicatesOk st.sheet (cleanLeadsData minYear leads))
            :: [Effect.remoteAppend
                ((filterDuplicatesOk st.sheet (cleanLeadsData minYear leads)).map (leadToRow ts))] := by
        simp [appendLeadsToSheet, hld, hcl, hne]
      exact ⟨h1, _, h2, by simp [Effect.isRemote]⟩
  · intro heq
    by_cases hld : leads = []
    · simp [appendLeadsToSheet, hld]
    · by_cases hcl : cleanLeadsData minYear leads = []
      · simp [appendLeadsToSheet, hld, heq, hcl, filterDuplicatesOk]
      · simp [appendLeadsToSheet, hld, heq, hcl]

/-- Closed instance of C4 amended: on a failing remote append the mirror
write has already happened, after the duplicate filter's read. -/
theorem C4_mirror_amended_witness :
    (appendLeadsToSheet 2018 "ts" ⟨[stdHeader], []⟩ [dupLead]
        AppendOutcome.otherErr).1.mirror
      = [] ++ filterDuplicatesOk [stdHeader] (cleanLeadsData 2018 [dupLead]) ∧
    ∃ tail,
      (appendLeadsToSheet 2018 "ts" ⟨[stdHeader], []⟩ [dupLead]
          AppendOutcome.otherErr).2.2
        = Effect.remoteRead
          :: Effect.localWrite (filterDuplicatesOk [stdHeader] (cleanLeadsData 2018 [dupLead]))
          :: tail ∧
      ∀ e ∈ tail, Effect.isRemote e = true :=
  (C4_mirror_amended 2018 "ts" ⟨[stdHeader], []⟩ [dupLead]
    AppendOutcome.otherErr).1 (by decide)

/-- The remote-read phase either falls back to the local mirror or returns
the parse of a non-empty successful read. -/
lemma readPhase_char (env : GetAllEnv) :
    readPhase env = Sum.inr env.localMirror ∨
      ∃ values, env.readOutcome = .ok values ∧ values ≠ [] ∧
        readPhase env = Sum.inl (parseValues values) := by
  rcases h : env.readOutcome with v | s | - | -
  · by_cases hv : v = []
    · subst hv
      left
      simp [readPhase, h]
    · right
      exact ⟨v, rfl, hv, by simp [readPhase, h, hv]⟩
  · left; simp [readPhase, h]
  · left; simp [readPhase, h]
  · left; simp [readPhase, h]

/-- C5 counterexample: on an auth error (HTTP 401) from the remote read,
get_all_leads returns the local mirror at once, with no refresh and no
retried read — the inner handler catches the HttpError before the outer
auth-refresh branch can see it. -/
theorem C5_get_all_counterexample :
    getAllLeads ⟨true, true, true, .httpErr 401, [dupLead]⟩
      = (Sum.inr [dupLead], [ReadAction.remoteRead]) ∧
    ReadAction.refreshConn ∉
      (getAllLeads ⟨true, true, true, .httpErr 401, [dupLead]⟩).2 := by
  refine ⟨rfl, ?_⟩
  intro h
  simp [getAllLeads, readPhase] at h

/-- C5 amended: get_all_leads never raises; it returns the local mirror on
every remote-read outcome other than a non-empty successful read (auth and
non-auth errors, timeouts, unexpected exceptions, empty results) and when
no credential or service is available; on an auth error from the read it
falls back directly, with no refresh-and-retry — the only refresh ever
performed precedes the read, when the service was unavailable at entry and
credentials were present. -/
theorem C5_get_all_amended (env : GetAllEnv) :
    ((getAllLeads env).1 = Sum.inr env.localMirror ∨
      ∃ values, env.readOutcome = .ok values ∧ values ≠ [] ∧
        (getAllLeads env).1 = Sum.inl (parseValues values)) ∧
    (∀ s, env.readOutcome = .httpErr s → env.serviceUp = true →
      getAllLeads env = (Sum.inr env.localMirror, [ReadAction.remoteRead])) ∧
    ((getAllLeads env).2 = [] ∨
      (getAllLeads env).2 = [ReadAction.remoteRead] ∨
      (getAllLeads env).2 = [ReadAction.refreshConn] ∨
      (getAllLeads env).2 = [ReadAction.refreshConn, ReadAction.remoteRead]) := by
  refine ⟨?_, ?_, ?_⟩
  · by_cases hsu : env.serviceUp = true
    · have h1 : (getAllLeads env).1 = readPhase env := by
        simp [getAllLeads, hsu]
      rw [h1]
      exact readPhase_char env
    · by_cases hcp : env.credsPresent = true
      · by_cases hro : env.refreshOk = true
        · have h1 : (getAllLeads env).1 = readPhase env := by
            simp [getAllLeads, hsu, hcp, hro]
          rw [h1]
          exact readPhase_char env
        · left
          simp [getAllLeads, hsu, hcp, hro]
      · left
        simp [getAllLeads, hsu, hcp]
  · intro s hs hsu
    simp [getAllLeads, hsu, readPhase, hs]
  · by_cases hsu : env.serviceUp = true
    · right; left
      simp [getAllLeads, hsu]
    · by_cases hcp : env.credsPresent = true
      · by_cases hro : env.refreshOk = true
        · right; right; right
          simp [getAllLeads, hsu, hcp, hro]
        · right; right; left
          simp [getAllLeads, hsu, hcp, hro]
      · left
        simp [getAllLeads, hsu, hcp]

/-- Closed instance of C5 amended: a 403 from the read returns the local
mirror with a single read action. -/
theorem C5_get_all_witness :
    getAllLeads ⟨true, false, false, .httpErr 403, []⟩
      = (Sum.inr [], [ReadAction.remoteRead]) :=
  (C5_get_all_amended ⟨true, false, false, .httpErr 403, []⟩).2.1 403 rfl rfl

/-- One transient-failure step of the retry loop: record the error, sleep
the current delay, double it, and continue. -/
lemma retryAux_transient_step (f : Nat → ApiOutcome)
    (remaining attempt delay : Nat) (last : Option RetryError) (sleeps : List Nat)
    (h : (f attempt).isTransientFailure) :
    executeWithRetryAux f (remaining + 1) attempt delay last sleeps
      = executeWithRetryAux f remaining (attempt + 1) (delay * 2)
          (some ((f attempt).toRetryErr)) (sleeps ++ [delay]) := by
  rcases ho : f attempt with v | s | -
  · rw [ho] at h
    exact absurd h (by simp [ApiOutcome.isTransientFailure])
  · rw [ho] at h
    have hs : s ∈ transientStatuses := h
    simp [executeWithRetryAux, ho, hs, ApiOutcome.toRetryErr]
  · simp [executeWithRetryAux, ho, ApiOutcome.toRetryErr]

/-- C9: the retry helper, at its defaults of 3 attempts and base delay 2,
returns a success at once, re-raises a non-transient HttpError at once
without further attempts, retries transient failures (429/500/502/503/504
or timeout) with the delay doubling after each failed attempt (sleeps 2,
4, 8), and raises the last transient error after exhausting all three
attempts. -/
theorem C9_retry_helper (f : Nat → ApiOutcome) :
    (∀ v, f 0 = .success v → executeWithRetry f = ⟨.ok (some v), 1, []⟩) ∧
    (∀ s, f 0 = .httpError s → s ∉ transientStatuses →
      executeWithRetry f = ⟨.error (.http s), 1, []⟩) ∧
    ((f 0).isTransientFailure → ∀ v, f 1 = .success v →
      executeWithRetry f = ⟨.ok (some v), 2, [2]⟩) ∧
    ((f 0).isTransientFailure → ∀ s, f 1 = .httpError s → s ∉ transientStatuses →
      executeWithRetry f = ⟨.error (.http s), 2, [2]⟩) ∧
    ((f 0).isTransientFailure → (f 1).isTransientFailure → ∀ v, f 2 = .success v →
      executeWithRetry f = ⟨.ok (some v), 3, [2, 4]⟩) ∧
    ((f 0).isTransientFailure → (f 1).isTransientFailure →
      ∀ s, f 2 = .httpError s → s ∉ transientStatuses →
        executeWithRetry f = ⟨.error (.http s), 3, [2, 4]⟩) ∧
    ((f 0).isTransientFailure → (f 1).isTransientFailure → (f 2).isTransientFailure →
      executeWithRetry f = ⟨.error ((f 2).toRetryErr), 3, [2, 4, 8]⟩) := by
  refine ⟨?_, ?_, ?_, ?_, ?_, ?_, ?_⟩
  · intro v h
    simp [executeWithRetry, executeWithRetryAux, h]
  · intro s h hs
    simp [executeWithRetry, executeWithRetryAux, h, hs]
  · intro h0 v h1
    rw [executeWithRetry, retryAux_transient_step f 2 0 2 none [] h0]
    simp [executeWithRetryAux, h1]
  · intro h0 s h1 hs
    rw [executeWithRetry, retryAux_transient_step f 2 0 2 none [] h0]
    simp [executeWithRetryAux, h1, hs]
  · intro h0 h1 v h2
    rw [executeWithRetry, retryAux_transient_step f 2 0 2 none [] h0,
      retryAux_transient_step f 1 1 4 _ _ h1]
    simp [executeWithRetryAux, h2]
  · intro h0 h1 s h2 hs
    rw [executeWithRetry, retryAux_transient_step f 2 0 2 none [] h0,
      retryAux_transient_step f 1 1 4 _ _ h1]
    simp [executeWithRetryAux, h2, hs]
  · intro h0 h1 h2
    rw [executeWithRetry, retryAux_transient_step f 2 0 2 none [] h0,
      retryAux_transient_step f 1 1 4 _ _ h1,
      retryAux_transient_step f 0 2 8 _ _ h2]
    simp [executeWithRetryAux]

/-- Closed instance of C9: a 404 is re-raised after a single attempt, and
three straight 503s exhaust the attempts with sleeps 2, 4, 8 and raise the
last 503. -/
theorem C9_retry_helper_witness :
    executeWithRetry (fun _ => .httpError 404) = ⟨.error (.http 404), 1, []⟩ ∧
    executeWithRetry (fun _ => .httpError 503) = ⟨.error (.http 503), 3, [2, 4, 8]⟩ :=
  ⟨(C9_retry_helper (fun _ => .httpError 404)).2.1 404 rfl (by decide),
   (C9_retry_helper (fun _ => .httpError 503)).2.2.2.2.2.2
     (by simp [ApiOutcome.isTransientFailure, transientStatuses])
     (by simp [ApiOutcome.isTransientFailure, transientStatuses])
     (by simp [ApiOutcome.isTransientFailure, transientStatuses])⟩

/-- C8 counterexample: when both channels fail (email SMTP failure, no
client phone), the returned dictionary is all-False, yet the orchestrator's
truthiness test on the non-empty dictionary still reports the lead as
notified — the observed outcome is not equivalent to at-least-one-success. -/
theorem C8_notify_counterexample :
    (notifyClientAboutLead ⟨true, false, false, true⟩).1.email = false ∧
    (notifyClientAboutLead ⟨true, false, false, true⟩).1.sms = false ∧
    observedNotified ⟨true, false, false, true⟩ = true := by decide

/-- C8 amended: operator notification always attempts the email and SMS
channels in that order, one channel's failure or exception never
suppressing the other, and returns per-channel booleans, each a function
of its own channel's environment only; however the overall notified
outcome the orchestrator observes is the truthiness of the returned
two-entry dictionary, which is always true regardless of the channel
results. -/
theorem C8_notify_amended (env : NotifyEnv) :
    (notifyClientAboutLead env).2 = [Channel.email, Channel.sms] ∧
    (notifyClientAboutLead env).1.email = (env.emailConfigured && env.emailSendOk) ∧
    (notifyClientAboutLead env).1.sms = (env.clientPhonePresent && env.messagingUp) ∧
    observedNotified env = true :=
  ⟨rfl, rfl, rfl, rfl⟩

/-- C2: with CRM enabled and Thryv authentication succeeded in a live run,
the first loop iteration raises UnboundLocalError on thryv_status (never
assigned in that branch before step 4 reads it), there is no per-lead
handler, so the run aborts with exit code 1 instead of proceeding; the
same batch completes with exit code 0 when CRM is disabled. -/
theorem C2_per_lead_loop_bug :
    runLeadLoop ⟨true, true, false⟩ [⟨true⟩, ⟨true⟩]
      = .error (.unboundLocalError "thryv_status") ∧
    mainExitCode ⟨true, true, false⟩ [⟨true⟩, ⟨true⟩] = 1 ∧
    mainExitCode ⟨false, true, false⟩ [⟨true⟩, ⟨true⟩] = 0 :=
  ⟨rfl, rfl, rfl⟩

end CarFinder
